import Mathlib

/-!
Shallow embedding of the `httperr` Go package: an HTTP error value wrapping a
status code and an optional cause, its textual description (`Error`), its JSON
serialization (`MarshalJSON`), status-code range classifiers, response parsing
(`FromResponse`) and response writing (`RespondJSON`).

Go library collaborators are modelled as follows:
- `http.StatusText` is transcribed as `statusText` (the standard reason table,
  empty string for unknown codes).
- `strconv`-style quoting used by `fmt`'s `%q` verb is `goQuote` (faithful for
  ASCII text; printable characters kept, control characters escaped).
- `encoding/json` string encoding (with its default HTML escaping) is
  `jsonQuote`, and the field-tag-directed struct encoding of the wire payload
  is `encodeResponse`.
- `mime.ParseMediaType` and `json.Unmarshal` are external collaborators whose
  results `FromResponse` consumes; they are passed as parameters, with the
  source's convention that a media-type parse failure leaves the media type
  empty and is otherwise ignored.
- A Go `error` value is `GoErr`: either a plain `xerrors` message error, the
  package's own `*httpError`, or a third-party error with explicit
  capabilities (status code, `json.Unmarshaler`, `json.Marshaler`) and a fixed
  JSON encoding.
-/

namespace Httperr

/-- Lower-case hexadecimal digit, as used by Go's `strconv` and
`encoding/json` escapes. -/
def hexDigit (n : Nat) : Char :=
  if n < 10 then Char.ofNat (48 + n) else Char.ofNat (87 + n)

/-- Escape of one character inside a `strconv.Quote`-style quoted string
(the rendering `fmt` uses for the `%q` verb). -/
def quoteChar (c : Char) : String :=
  if c = '"' then "\\\""
  else if c = '\\' then "\\\\"
  else if c = '\x07' then "\\a"
  else if c = '\x08' then "\\b"
  else if c = '\x0c' then "\\f"
  else if c = '\n' then "\\n"
  else if c = '\r' then "\\r"
  else if c = '\t' then "\\t"
  else if c = '\x0b' then "\\v"
  else if c.toNat < 32 ∨ c.toNat = 127 then
    "\\x" ++ String.singleton (hexDigit (c.toNat / 16)) ++
      String.singleton (hexDigit (c.toNat % 16))
  else String.singleton c

/-- `strconv.Quote`: double-quoted Go string literal, as produced by the
`%q` formatting verb on a string (or on an error's message). -/
def goQuote (s : String) : String :=
  "\"" ++ String.join (s.toList.map quoteChar) ++ "\""

/-- Escape of one character in Go's `encoding/json` string encoder, with the
default HTML escaping of `<`, `>` and `&`. -/
def jsonEscapeChar (c : Char) : String :=
  if c = '"' then "\\\""
  else if c = '\\' then "\\\\"
  else if c = '\n' then "\\n"
  else if c = '\r' then "\\r"
  else if c = '\t' then "\\t"
  else if c.toNat < 32 then
    "\\u00" ++ String.singleton (hexDigit (c.toNat / 16)) ++
      String.singleton (hexDigit (c.toNat % 16))
  else if c = '<' then "\\u003c"
  else if c = '>' then "\\u003e"
  else if c = '&' then "\\u0026"
  else if c.toNat = 0x2028 then "\\u2028"
  else if c.toNat = 0x2029 then "\\u2029"
  else String.singleton c

/-- JSON string literal for `s`, as written by `encoding/json`. -/
def jsonQuote (s : String) : String :=
  "\"" ++ String.join (s.toList.map jsonEscapeChar) ++ "\""

/-- `http.StatusText`: the standard reason phrase for a status code, empty
for unknown codes. -/
def statusText (code : Int) : String :=
  if code = 100 then "Continue"
  else if code = 101 then "Switching Protocols"
  else if code = 102 then "Processing"
  else if code = 103 then "Early Hints"
  else if code = 200 then "OK"
  else if code = 201 then "Created"
  else if code = 202 then "Accepted"
  else if code = 203 then "Non-Authoritative Information"
  else if code = 204 then "No Content"
  else if code = 205 then "Reset Content"
  else if code = 206 then "Partial Content"
  else if code = 207 then "Multi-Status"
  else if code = 208 then "Already Reported"
  else if code = 226 then "IM Used"
  else if code = 300 then "Multiple Choices"
  else if code = 301 then "Moved Permanently"
  else if code = 302 then "Found"
  else if code = 303 then "See Other"
  else if code = 304 then "Not Modified"
  else if code = 305 then "Use Proxy"
  else if code = 307 then "Temporary Redirect"
  else if code = 308 then "Permanent Redirect"
  else if code = 400 then "Bad Request"
  else if code = 401 then "Unauthorized"
  else if code = 402 then "Payment Required"
  else if code = 403 then "Forbidden"
  else if code = 404 then "Not Found"
  else if code = 405 then "Method Not Allowed"
  else if code = 406 then "Not Acceptable"
  else if code = 407 then "Proxy Authentication Required"
  else if code = 408 then "Request Timeout"
  else if code = 409 then "Conflict"
  else if code = 410 then "Gone"
  else if code = 411 then "Length Required"
  else if code = 412 then "Precondition Failed"
  else if code = 413 then "Request Entity Too Large"
  else if code = 414 then "Request URI Too Long"
  else if code = 415 then "Unsupported Media Type"
  else if code = 416 then "Requested Range Not Satisfiable"
  else if code = 417 then "Expectation Failed"
  else if code = 418 then "I\x27m a teapot"
  else if code = 421 then "Misdirected Request"
  else if code = 422 then "Unprocessable Entity"
  else if code = 423 then "Locked"
  else if code = 424 then "Failed Dependency"
  else if code = 425 then "Too Early"
  else if code = 426 then "Upgrade Required"
  else if code = 428 then "Precondition Required"
  else if code = 429 then "Too Many Requests"
  else if code = 431 then "Request Header Fields Too Large"
  else if code = 451 then "Unavailable For Legal Reasons"
  else if code = 500 then "Internal Server Error"
  else if code = 501 then "Not Implemented"
  else if code = 502 then "Bad Gateway"
  else if code = 503 then "Service Unavailable"
  else if code = 504 then "Gateway Timeout"
  else if code = 505 then "HTTP Version Not Supported"
  else if code = 506 then "Variant Also Negotiates"
  else if code = 507 then "Insufficient Storage"
  else if code = 508 then "Loop Detected"
  else if code = 510 then "Not Extended"
  else if code = 511 then "Network Authentication Required"
  else ""

/-- A Go `error` value as the package can encounter it:
- `basic`: an `xerrors.New`/`xerrors.Errorf` error carrying just a message;
  it implements none of `StatusCoder`, `json.Unmarshaler`, `json.Marshaler`,
  and its struct fields are unexported so `encoding/json` encodes it as an
  empty object.
- `http`: the package's own `*httpError` with its stored code and optional
  cause; it implements `StatusCoder` and `json.Marshaler` but not
  `json.Unmarshaler`.
- `custom`: an arbitrary third-party error with an explicit message, optional
  `StatusCoder` capability, explicit `json.Unmarshaler` / `json.Marshaler`
  capabilities and the JSON text `encoding/json` produces for it. -/
inductive GoErr where
  | basic (msg : String)
  | http (code : Int) (cause : Option GoErr)
  | custom (msg : String) (code : Option Int)
      (unmarshaler marshaler : Bool) (enc : String)

/-- `Error()`: the textual description of a Go error. For `*httpError` this is
`fmt.Sprintf` with `"%d %s"` when the cause is nil and `"%d %s: %q"`
otherwise (`%q` quoting the cause's own `Error()` text). -/
def GoErr.message : GoErr → String
  | GoErr.basic msg => msg
  | GoErr.custom msg _ _ _ _ => msg
  | GoErr.http code cause =>
    match cause with
    | none => toString code ++ " " ++ statusText code
    | some e => toString code ++ " " ++ statusText code ++ ": " ++ goQuote e.message

/-- The `StatusCoder` capability check `err.(StatusCoder)`: `some` of the code
the `StatusCode()` method returns when the dynamic type implements it. -/
def statusCoderOf : GoErr → Option Int
  | GoErr.basic _ => none
  | GoErr.http code _ => some code
  | GoErr.custom _ code _ _ _ => code

/-- The `json.Unmarshaler` capability check `err.(json.Unmarshaler)`:
`*httpError` and `xerrors` errors do not implement `UnmarshalJSON`. -/
def isJsonUnmarshaler : GoErr → Bool
  | GoErr.basic _ => false
  | GoErr.http _ _ => false
  | GoErr.custom _ _ u _ _ => u

/-- The `json.Marshaler` capability: `*httpError` implements `MarshalJSON`,
`xerrors` errors do not. -/
def isJsonMarshaler : GoErr → Bool
  | GoErr.basic _ => false
  | GoErr.http _ _ => true
  | GoErr.custom _ _ _ m _ => m

/-- `Unwrap()`: the cause exposed for chained inspection; only `*httpError`
implements it (`errors.Unwrap` yields nothing for the other shapes). -/
def unwrap : GoErr → Option GoErr
  | GoErr.basic _ => none
  | GoErr.http _ cause => cause
  | GoErr.custom _ _ _ _ _ => none

/-- `New`: creates a new HTTP error storing code and cause verbatim. -/
def New (code : Int) (err : Option GoErr) : GoErr :=
  GoErr.http code err

/-- `Errorf`: creates a new HTTP error whose cause is an `xerrors.Errorf`
error; the formatted message string is taken as given. -/
def Errorf (code : Int) (formatted : String) : GoErr :=
  GoErr.http code (some (GoErr.basic formatted))

/-- `BadRequest`: HTTP 400 error. -/
def BadRequest (err : Option GoErr) : GoErr :=
  New 400 err

/-- `InternalServerError`: HTTP 500 error. -/
def InternalServerError (err : Option GoErr) : GoErr :=
  New 500 err

/-- `NotFound`: HTTP 404 error. -/
def NotFound (err : Option GoErr) : GoErr :=
  New 404 err

/-- `MethodNotAllowed`: HTTP 405 error. -/
def MethodNotAllowed (err : Option GoErr) : GoErr :=
  New 405 err

/-- The wire payload `Response` with fields tagged `message`, `error`,
`statusCode`. -/
structure Response where
  message : String
  error : String
  statusCode : Int
  deriving DecidableEq

/-- `json.Marshal` of a `Response` value: its three tagged fields in struct
order, strings through the JSON string encoder. -/
def encodeResponse (r : Response) : String :=
  "\x7b\x22message\x22:" ++ jsonQuote r.message ++
    ",\x22error\x22:" ++ jsonQuote r.error ++
    ",\x22statusCode\x22:" ++ toString r.statusCode ++ "\x7d"

/-- The `Response` value `(*httpError).MarshalJSON` marshals: `message` is the
cause's `Error()` text when present, else the standard reason text; `error` is
the standard reason text; `statusCode` is the stored code. -/
def marshalResponse (code : Int) (cause : Option GoErr) : Response :=
  let err := statusText code
  let msg := match cause with
    | none => err
    | some e => e.message
  ⟨msg, err, code⟩

/-- `(*httpError).MarshalJSON`: the JSON bytes of the marshalled payload. -/
def MarshalJSON (code : Int) (cause : Option GoErr) : String :=
  encodeResponse (marshalResponse code cause)

/-- `IsInformational`: 100 ≤ code < 200 (`http.StatusContinue` to
`http.StatusOK`). -/
def IsInformational (code : Int) : Bool :=
  decide (100 ≤ code ∧ code < 200)

/-- `IsSuccess`: 200 ≤ code < 300. -/
def IsSuccess (code : Int) : Bool :=
  decide (200 ≤ code ∧ code < 300)

/-- `IsRedirect`: 300 ≤ code < 400. -/
def IsRedirect (code : Int) : Bool :=
  decide (300 ≤ code ∧ code < 400)

/-- `IsClientError`: 400 ≤ code < 500. -/
def IsClientError (code : Int) : Bool :=
  decide (400 ≤ code ∧ code < 500)

/-- `IsServerError`: 500 ≤ code < 600. -/
def IsServerError (code : Int) : Bool :=
  decide (500 ≤ code ∧ code < 600)

/-- `IsError`: 400 ≤ code < 600. -/
def IsError (code : Int) : Bool :=
  decide (400 ≤ code ∧ code < 600)

/-- Number of `true` entries in a list of classifier results. -/
def countTrue (l : List Bool) : Nat :=
  l.countP (fun b => b = true)

/-- The media types the `switch` in `FromResponse` treats as plain text. -/
def isTextType (mt : String) : Bool :=
  mt = "text/plain" || mt = "text/html" || mt = "text/xml"

/-- The media type `FromResponse` works with: `mime.ParseMediaType`'s result,
with a parse failure ignored and yielding the empty media type. -/
def mediaTypeOf (parseMediaType : String → Except String String)
    (contentType : String) : String :=
  match parseMediaType contentType with
  | Except.ok m => m
  | Except.error _ => ""

/-- `FromResponse`: builds an HTTP error from a received response, given the
response's status code, its `Content-Type` header, the result of draining its
body, and the library collaborators `mime.ParseMediaType` and
`json.Unmarshal` (into a `Response`). -/
def FromResponse (statusCode : Int) (contentType : String)
    (body : Except String String)
    (parseMediaType : String → Except String String)
    (unmarshal : String → Except String Response) : GoErr :=
  match body with
  | Except.error e =>
      New statusCode (some (GoErr.basic ("Failed to read response body: " ++ goQuote e)))
  | Except.ok data =>
      let mediatype := mediaTypeOf parseMediaType contentType
      if isTextType mediatype then
        New statusCode (some (GoErr.basic data))
      else
        match unmarshal data with
        | Except.error e =>
            New statusCode (some (GoErr.basic ("Error parsing response: " ++ e)))
        | Except.ok tmp =>
            New statusCode (some (GoErr.basic tmp.message))

/-- A value handed to `RespondJSON`: either a Go error, or a non-error value
carried together with its `encoding/json` encoding. -/
inductive GoValue where
  | err (e : GoErr)
  | plain (enc : String)

/-- What `enc.Encode(v)` writes for an error value, before the trailing
newline: a `json.Marshaler` uses its `MarshalJSON`; an `xerrors` error has
only unexported fields and encodes as an empty object; a third-party error
carries its encoding. -/
def encodeGoErr : GoErr → String
  | GoErr.basic _ => "\x7b\x7d"
  | GoErr.http code cause => MarshalJSON code cause
  | GoErr.custom _ _ _ _ enc => enc

/-- The observable effect of `RespondJSON`: the `Content-Type` header set on
the writer, the status written by `WriteHeader`, and the body bytes written
by the JSON encoder (`Encoder.Encode` appends a newline). -/
structure RespondResult where
  contentType : String
  status : Int
  body : String
  deriving DecidableEq

/-- `RespondJSON`: sends a JSON encoded HTTP response. For an error value the
status comes from the `StatusCoder` capability (500 by default), and the body
is the error itself when it passes the `err.(json.Unmarshaler)` check, else
the error wrapped by `New(code, err)`; a non-error value is written with
status 200 and its own encoding. -/
def RespondJSON (x : GoValue) : RespondResult :=
  match x with
  | GoValue.err e =>
      let code := (statusCoderOf e).getD 500
      if isJsonUnmarshaler e then
        ⟨"application/json", code, encodeGoErr e ++ "\n"⟩
      else
        ⟨"application/json", code, encodeGoErr (New code (some e)) ++ "\n"⟩
  | GoValue.plain j => ⟨"application/json", 200, j ++ "\n"⟩

/-- C5 counterexample: at code 400 — inside [100,599] — two of the six range
predicates hold at once (`IsClientError` and `IsError`), so it is false that
exactly one of the six holds on that range. -/
theorem sixPredicates_not_exclusive_at_400 :
    100 ≤ (400 : Int) ∧ (400 : Int) ≤ 599 ∧
      countTrue [IsInformational 400, IsSuccess 400, IsRedirect 400,
        IsClientError 400, IsServerError 400, IsError 400] = 2 ∧
      ¬ countTrue [IsInformational 400, IsSuccess 400, IsRedirect 400,
        IsClientError 400, IsServerError 400, IsError 400] = 1 := by
  refine ⟨by decide, by decide, ?_, ?_⟩ <;> decide

/-- C5 (amended): each of the six predicates is true exactly on its stated
half-open range, `IsError` coincides with `IsClientError ∨ IsServerError`,
and for every code in [100,599] exactly one of the five disjoint predicates
(informational, success, redirect, client error, server error) holds. -/
theorem rangePredicates_partition (c : Int) :
    (IsInformational c = true ↔ 100 ≤ c ∧ c < 200) ∧
    (IsSuccess c = true ↔ 200 ≤ c ∧ c < 300) ∧
    (IsRedirect c = true ↔ 300 ≤ c ∧ c < 400) ∧
    (IsClientError c = true ↔ 400 ≤ c ∧ c < 500) ∧
    (IsServerError c = true ↔ 500 ≤ c ∧ c < 600) ∧
    (IsError c = true ↔ 400 ≤ c ∧ c < 600) ∧
    IsError c = (IsClientError c || IsServerError c) ∧
    (100 ≤ c → c ≤ 599 →
      countTrue [IsInformational c, IsSuccess c, IsRedirect c,
        IsClientError c, IsServerError c] = 1) := by
  refine ⟨by simp [IsInformational], by simp [IsSuccess], by simp [IsRedirect],
    by simp [IsClientError], by simp [IsServerError], by simp [IsError], ?_, ?_⟩
  · simp only [IsError, IsClientError, IsServerError, ← Bool.decide_or,
      decide_eq_decide]
    omega
  · intro h1 h2
    simp only [countTrue, IsInformational, IsSuccess, IsRedirect, IsClientError,
      IsServerError, List.countP, List.countP.go, cond_eq_if, decide_eq_true_eq]
    split_ifs <;> omega

/-- C5 witness: the amended partition statement applied at code 250. -/
theorem rangePredicates_partition_witness :
    100 ≤ (250 : Int) ∧ (250 : Int) ≤ 599 ∧
      countTrue [IsInformational 250, IsSuccess 250, IsRedirect 250,
        IsClientError 250, IsServerError 250] = 1 :=
  ⟨by decide, by decide,
    (rangePredicates_partition 250).2.2.2.2.2.2.2 (by decide) (by decide)⟩

/-- C7: the textual description of an HTTP error is
`"<code> <standard reason>"` without a cause and
`"<code> <standard reason>: <quoted cause text>"` with one; concretely
`New 404 none` describes as `404 Not Found` and `New 404 (err "missing")`
as `404 Not Found: "missing"` with the cause text quoted. -/
theorem error_description :
    (∀ (code : Int) (cause : Option GoErr),
      GoErr.message (New code cause) =
        match cause with
        | none => toString code ++ " " ++ statusText code
        | some e => toString code ++ " " ++ statusText code ++ ": " ++
            goQuote (GoErr.message e)) ∧
    GoErr.message (New 404 none) = "404 Not Found" ∧
    GoErr.message (New 404 (some (GoErr.basic "missing"))) =
      "404 Not Found: \"missing\"" := by
  refine ⟨fun code cause => ?_, by decide, by decide⟩
  cases cause <;> rfl

/-- C8: `New` stores code and cause verbatim with no validation (its domain
is every integer), the `StatusCoder` capability on the result returns exactly
the stored code, and `Unwrap` exposes exactly the stored cause. -/
theorem new_stores_verbatim (code : Int) (cause : Option GoErr) :
    New code cause = GoErr.http code cause ∧
    statusCoderOf (New code cause) = some code ∧
    unwrap (New code cause) = cause :=
  ⟨rfl, rfl, rfl⟩

/-- C9 counterexample: `New` (the claim's `construct`) accepts 700 and stores
it verbatim, so the produced HTTP error value's code is outside [100,599]. -/
theorem construct_accepts_out_of_range :
    statusCoderOf (New 700 none) = some 700 ∧
      ¬ (100 ≤ (700 : Int) ∧ (700 : Int) ≤ 599) :=
  ⟨rfl, by decide⟩

/-- C9 (amended): every HTTP error value produced by one of the four named
shortcut constructors has its stored code in [100,599]; `construct` and
`constructFormatted` themselves store any integer verbatim without range
validation. -/
theorem shortcuts_code_in_range (err : Option GoErr) (formatted : String) :
    (statusCoderOf (BadRequest err) = some 400 ∧
      100 ≤ (400 : Int) ∧ (400 : Int) ≤ 599) ∧
    (statusCoderOf (InternalServerError err) = some 500 ∧
      100 ≤ (500 : Int) ∧ (500 : Int) ≤ 599) ∧
    (statusCoderOf (NotFound err) = some 404 ∧
      100 ≤ (404 : Int) ∧ (404 : Int) ≤ 599) ∧
    (statusCoderOf (MethodNotAllowed err) = some 405 ∧
      100 ≤ (405 : Int) ∧ (405 : Int) ≤ 599) ∧
    (∀ code : Int, statusCoderOf (New code err) = some code ∧
      statusCoderOf (Errorf code formatted) = some code) :=
  ⟨⟨rfl, by decide, by decide⟩, ⟨rfl, by decide, by decide⟩,
    ⟨rfl, by decide, by decide⟩, ⟨rfl, by decide, by decide⟩,
    fun _ => ⟨rfl, rfl⟩⟩

/-- C6: `MarshalJSON` produces a JSON object with exactly the fields
`message`, `error` and `statusCode` in that order, where `message` is the
cause's textual description when a cause is present and the standard reason
text otherwise, `error` is the standard reason text for the stored code, and
`statusCode` is the stored code. -/
theorem marshalJSON_fields (code : Int) (cause : Option GoErr) :
    MarshalJSON code cause =
      "\x7b\x22message\x22:" ++
        jsonQuote (match cause with
          | none => statusText code
          | some e => GoErr.message e) ++
      ",\x22error\x22:" ++ jsonQuote (statusText code) ++
      ",\x22statusCode\x22:" ++ toString code ++ "\x7d" := by
  cases cause <;> rfl

/-- C1: `FromResponse` always returns an HTTP error value at the response's
status code with some cause; a media-type parse failure leaves the media
type empty; when the parsed media type is exactly `text/plain`, `text/html`
or `text/xml` the cause is the raw body text; for every other media type the
body is decoded as a `Response`, a decode failure yields the formatted
`Error parsing response` message embedding the decode error, and a decode
success yields the payload's `message` field with the other fields
discarded. -/
theorem fromResponse_cases (sc : Int) (ct data : String)
    (pmt : String → Except String String)
    (um : String → Except String Response) :
    (∀ body, ∃ cause,
      FromResponse sc ct body pmt um = GoErr.http sc (some cause)) ∧
    (∀ e, pmt ct = Except.error e → mediaTypeOf pmt ct = "") ∧
    (isTextType (mediaTypeOf pmt ct) = true →
      FromResponse sc ct (Except.ok data) pmt um =
        GoErr.http sc (some (GoErr.basic data))) ∧
    (isTextType (mediaTypeOf pmt ct) = false →
      (∀ e, um data = Except.error e →
        FromResponse sc ct (Except.ok data) pmt um =
          GoErr.http sc (some (GoErr.basic ("Error parsing response: " ++ e)))) ∧
      (∀ tmp, um data = Except.ok tmp →
        FromResponse sc ct (Except.ok data) pmt um =
          GoErr.http sc (some (GoErr.basic tmp.message)))) := by
  refine ⟨fun body => ?_, fun e he => ?_, fun ht => ?_, fun hf => ⟨fun e he => ?_, fun tmp ht => ?_⟩⟩
  · cases body with
    | error e => exact ⟨_, rfl⟩
    | ok data =>
      simp only [FromResponse, New]
      split
      · exact ⟨_, rfl⟩
      · split <;> exact ⟨_, rfl⟩
  · simp [mediaTypeOf, he]
  · simp [FromResponse, ht, New]
  · simp [FromResponse, hf, he, New]
  · simp [FromResponse, hf, ht, New]

/-- C1 witness: a concrete `text/plain` response whose body is taken as the
raw cause at the original status code. -/
theorem fromResponse_cases_witness :
    FromResponse 404 "text/plain" (Except.ok "oops")
        (fun s => Except.ok s) (fun _ => Except.error "bad") =
      GoErr.http 404 (some (GoErr.basic "oops")) :=
  (fromResponse_cases 404 "text/plain" "oops"
    (fun s => Except.ok s) (fun _ => Except.error "bad")).2.2.1 (by decide)

/-- C2: feeding the `MarshalJSON` bytes of `New 500 (err "boom")` back through
`FromResponse` with `Content-Type: application/json` and status 500 — for any
media-type parser that parses that header to `application/json` and any JSON
decoder that correctly inverts the encoding on those bytes — yields an HTTP
error value with code 500 whose cause's textual description is exactly
`boom`. -/
theorem toJSON_fromResponse_roundtrip
    (pmt : String → Except String String)
    (um : String → Except String Response)
    (hp : pmt "application/json" = Except.ok "application/json")
    (hu : um (MarshalJSON 500 (some (GoErr.basic "boom"))) =
      Except.ok ⟨"boom", "Internal Server Error", 500⟩) :
    FromResponse 500 "application/json"
        (Except.ok (MarshalJSON 500 (some (GoErr.basic "boom")))) pmt um =
      GoErr.http 500 (some (GoErr.basic "boom")) ∧
    GoErr.message (GoErr.basic "boom") = "boom" := by
  refine ⟨?_, rfl⟩
  simp [FromResponse, mediaTypeOf, hp, hu, New, isTextType]

/-- C2 witness: the round trip at a concrete media-type parser and a concrete
decoder that returns the encoded payload. -/
theorem toJSON_fromResponse_roundtrip_witness :
    FromResponse 500 "application/json"
        (Except.ok (MarshalJSON 500 (some (GoErr.basic "boom"))))
        (fun s => Except.ok s)
        (fun _ => Except.ok ⟨"boom", "Internal Server Error", 500⟩) =
      GoErr.http 500 (some (GoErr.basic "boom")) ∧
    GoErr.message (GoErr.basic "boom") = "boom" :=
  toJSON_fromResponse_roundtrip (fun s => Except.ok s)
    (fun _ => Except.ok ⟨"boom", "Internal Server Error", 500⟩) rfl rfl

/-- C3: `RespondJSON` writes the `StatusCoder` capability's code for an error
that has one, defaults to status 500 for an error without it, and for a
non-error value writes status 200 with the value's own JSON encoding
unchanged. -/
theorem respondJSON_status :
    (∀ (e : GoErr) (c : Int), statusCoderOf e = some c →
      (RespondJSON (GoValue.err e)).status = c) ∧
    (∀ e : GoErr, statusCoderOf e = none →
      (RespondJSON (GoValue.err e)).status = 500) ∧
    (∀ j, RespondJSON (GoValue.plain j) =
      ⟨"application/json", 200, j ++ "\n"⟩) := by
  refine ⟨fun e c hc => ?_, fun e hc => ?_, fun j => rfl⟩ <;>
    simp only [RespondJSON, hc, Option.getD] <;> split <;> rfl

/-- C3 witness: a 404 error with the capability is written at status 404, an
error without it at status 500, and a plain value at status 200. -/
theorem respondJSON_status_witness :
    (RespondJSON (GoValue.err (GoErr.http 404 none))).status = 404 ∧
    (RespondJSON (GoValue.err (GoErr.basic "x"))).status = 500 ∧
    RespondJSON (GoValue.plain "true") =
      ⟨"application/json", 200, "true" ++ "\n"⟩ :=
  ⟨respondJSON_status.1 (GoErr.http 404 none) 404 rfl,
    respondJSON_status.2.1 (GoErr.basic "x") rfl,
    respondJSON_status.2.2 "true"⟩

/-- C4 at the divergence: `New 500 (err "boom")` exposes a custom JSON
encoding (it is a `json.Marshaler`), yet `RespondJSON` re-wraps it in
`New(code, err)` instead of encoding it directly — the written body differs
from the error's own encoding — because the source checks
`err.(json.Unmarshaler)`, a decode capability; conversely an error that is a
`json.Unmarshaler` but not a `json.Marshaler` is encoded directly. -/
theorem respondJSON_checks_unmarshaler_not_marshaler :
    isJsonMarshaler (GoErr.http 500 (some (GoErr.basic "boom"))) = true ∧
    RespondJSON (GoValue.err (GoErr.http 500 (some (GoErr.basic "boom")))) =
      ⟨"application/json", 500,
        MarshalJSON 500 (some (GoErr.http 500 (some (GoErr.basic "boom")))) ++ "\n"⟩ ∧
    RespondJSON (GoValue.err (GoErr.http 500 (some (GoErr.basic "boom")))) ≠
      ⟨"application/json", 500,
        encodeGoErr (GoErr.http 500 (some (GoErr.basic "boom"))) ++ "\n"⟩ ∧
    isJsonMarshaler (GoErr.custom "x" none true false "zz") = false ∧
    RespondJSON (GoValue.err (GoErr.custom "x" none true false "zz")) =
      ⟨"application/json", 500, "zz" ++ "\n"⟩ := by
  refine ⟨rfl, rfl, ?_, rfl, rfl⟩
  decide

/-- C10: the package's own HTTP error value with a non-nil cause does not
pass `RespondJSON`'s custom-encoding check (it is not a `json.Unmarshaler`),
so it is re-wrapped and the encoded payload's `message` field is its full
textual description `"<code> <standard reason>: <quoted cause text>"`. -/
theorem respondJSON_rewraps_httpError (code : Int) (c : GoErr) :
    isJsonUnmarshaler (GoErr.http code (some c)) = false ∧
    RespondJSON (GoValue.err (GoErr.http code (some c))) =
      ⟨"application/json", code,
        MarshalJSON code (some (GoErr.http code (some c))) ++ "\n"⟩ ∧
    (marshalResponse code (some (GoErr.http code (some c)))).message =
      GoErr.message (GoErr.http code (some c)) ∧
    GoErr.message (GoErr.http code (some c)) =
      toString code ++ " " ++ statusText code ++ ": " ++ goQuote (GoErr.message c) :=
  ⟨rfl, rfl, rfl, rfl⟩

end Httperr
